import Mathlib

/-!
# Room-scoped pseudo-identity store and leave-room orchestration

A shallow embedding of

* `roomserver/storage/sqlite3/user_room_keys_table.go` — the table
  `roomserver_user_room_keys` and the four statements run against it;
* `clientapi/routing/leaveroom.go` — `LeaveRoomByID`.

The table is a list of rows in insertion order.  Every SQL statement is a pure
function on that list, taking effect atomically; every Go method is the
statement followed by what `database/sql` does with the statement's outcome
(`Row.Scan`, `Rows.Next`).  The functions named `...Of` are the Go code after the
statement, for every outcome including a driver fault; the methods themselves
are given for a database that runs the statement.  `BulkSelectUserNIDs` prepares
a statement with one placeholder per sender key, which SQLite refuses beyond
`SQLITE_MAX_VARIABLE_NUMBER` placeholders.

Byte slices are lists of byte values.  Keys passed in are non-nil slices; a
returned Go `nil` key is `none`.  The derivation `key.Public()` of
`crypto/ed25519` is a parameter `Public` of the embedding.  The collaborators of
`LeaveRoomByID` (`spec.NewUserID`, `QuerySenderIDForUser`, `PerformLeave`) are
fields of an environment.
-/

namespace Dendrite

/-! ## Data model -/

/-- A Go `[]byte` value that is not nil. -/
abbrev Bytes := List Nat

/-- The type `ed25519.PrivateKey`. -/
abbrev PrivateKey := Bytes

/-- The type `ed25519.PublicKey`. -/
abbrev PublicKey := Bytes

/-- The type `types.EventStateKeyNID` (an `int64`). -/
abbrev EventStateKeyNID := Int

/-- The type `types.RoomNID` (an `int64`). -/
abbrev RoomNID := Int

/-- One row of `roomserver_user_room_keys` (`userRoomKeysSchema`):
`pseudo_id_key TEXT NULL`, `pseudo_id_pub_key TEXT NOT NULL`. -/
structure Row where
  user_nid : EventStateKeyNID
  room_nid : RoomNID
  pseudo_id_key : Option Bytes
  pseudo_id_pub_key : Bytes
deriving DecidableEq, Repr

/-- The table contents, in insertion (rowid) order. -/
abbrev Table := List Row

/-- Whether a row carries the primary key `(user_nid, room_nid)`. -/
def Row.hasPK (row : Row) (userNID : EventStateKeyNID) (roomNID : RoomNID) : Bool :=
  decide (row.user_nid = userNID) && decide (row.room_nid = roomNID)

/-- The row stored under a primary key, if any. -/
def Table.lookup (t : Table) (userNID : EventStateKeyNID) (roomNID : RoomNID) : Option Row :=
  List.find? (fun row => row.hasPK userNID roomNID) t

/-- The errors the embedded code can see. -/
inductive Error where
  /-- The value `sql.ErrNoRows`. -/
  | ErrNoRows
  /-- The conversion error of `database/sql`:
  "unsupported Scan, storing driver.Value type <nil> into type *ed25519.PrivateKey". -/
  | UnsupportedScanNil
  /-- Any error reported by the driver while running the statement. -/
  | Driver (msg : String)
deriving DecidableEq, Repr

/-- What `QueryRowContext` hands to `Row.Scan`: a driver error, an empty result
set, or the single column of the first result row (`none` is SQL `NULL`). -/
inductive RowOutcome where
  | failed (msg : String)
  | noRows
  | row (col : Option Bytes)
deriving DecidableEq, Repr

/-- The call `Row.Scan(&result)` of `database/sql` for a destination whose type is a
*named* byte-slice type (`ed25519.PrivateKey`, `ed25519.PublicKey`), returning
the destination afterwards together with the error.

`convertAssign` special-cases a `NULL` source only for destinations of the
exact types `*any`, `*[]byte` and `*RawBytes`; a pointer to a named slice type
falls through to the reflection path, where an invalid (nil) source value is
neither assignable nor convertible and the destination kind `Slice` has no
case, so the conversion fails and the destination keeps its zero value. -/
def RowOutcome.Scan : RowOutcome → Option Bytes × Option Error
  | .failed msg => (none, some (.Driver msg))
  | .noRows => (none, some .ErrNoRows)
  | .row none => (none, some .UnsupportedScanNil)
  | .row (some b) => (some b, none)

/-! ## The SQL statements -/

/-- The statement `insertUserRoomKeySQL`:
`INSERT ... VALUES ($1, $2, $3, $4)
 ON CONFLICT DO UPDATE SET pseudo_id_key = roomserver_user_room_keys.pseudo_id_key
 RETURNING (pseudo_id_key)`.
Returns the new table and the returned column. -/
def insertUserRoomKeySQL (t : Table) (userNID : EventStateKeyNID) (roomNID : RoomNID)
    (key : Bytes) (pub : Bytes) : Table × Option Bytes :=
  match t.lookup userNID roomNID with
  | some old =>
    (t.map (fun row =>
        if row.hasPK userNID roomNID then { row with pseudo_id_key := row.pseudo_id_key }
        else row),
     old.pseudo_id_key)
  | none =>
    (t ++ [{ user_nid := userNID, room_nid := roomNID,
             pseudo_id_key := some key, pseudo_id_pub_key := pub }],
     some key)

/-- The statement `insertUserRoomPublicKeySQL`:
`INSERT ... (user_nid, room_nid, pseudo_id_pub_key) VALUES ($1, $2, $3)
 ON CONFLICT DO UPDATE SET pseudo_id_pub_key = roomserver_user_room_keys.pseudo_id_pub_key
 RETURNING (pseudo_id_pub_key)`.
Returns the new table and the returned column. -/
def insertUserRoomPublicKeySQL (t : Table) (userNID : EventStateKeyNID) (roomNID : RoomNID)
    (key : Bytes) : Table × Bytes :=
  match t.lookup userNID roomNID with
  | some old =>
    (t.map (fun row =>
        if row.hasPK userNID roomNID then { row with pseudo_id_pub_key := row.pseudo_id_pub_key }
        else row),
     old.pseudo_id_pub_key)
  | none =>
    (t ++ [{ user_nid := userNID, room_nid := roomNID,
             pseudo_id_key := none, pseudo_id_pub_key := key }],
     key)

/-- The statement `selectUserRoomKeySQL`:
`SELECT pseudo_id_key FROM roomserver_user_room_keys WHERE user_nid = $1 AND room_nid = $2`,
as seen through `QueryRowContext`. -/
def selectUserRoomKeySQL (t : Table) (userNID : EventStateKeyNID) (roomNID : RoomNID) :
    RowOutcome :=
  match t.lookup userNID roomNID with
  | some row => .row row.pseudo_id_key
  | none => .noRows

/-- The statement `selectUserNIDsSQL` with `($1)` replaced by one placeholder per
sender key: `SELECT user_nid, pseudo_id_pub_key ... WHERE pseudo_id_pub_key IN (...)`.
The result rows come in table order. -/
def selectUserNIDsSQL (t : Table) (senderKeys : List Bytes) :
    List (EventStateKeyNID × Bytes) :=
  (t.filter (fun row => decide (row.pseudo_id_pub_key ∈ senderKeys))).map
    (fun row => (row.user_nid, row.pseudo_id_pub_key))

/-! ## The Go methods of `userRoomKeysStatements` -/

/-- The body of `InsertUserRoomPrivateKey` after the statement ran:
`err = ....Scan(&result); return result, err`. -/
def InsertUserRoomPrivateKeyOf (o : RowOutcome) : Option PrivateKey × Option Error :=
  o.Scan

/-- The method `InsertUserRoomPrivateKey` on a working database.  `Public` is
`key.Public()` of `crypto/ed25519`.  Returns the new table, `result` and `err`. -/
def InsertUserRoomPrivateKey (Public : PrivateKey → PublicKey) (t : Table)
    (userNID : EventStateKeyNID) (roomNID : RoomNID) (key : PrivateKey) :
    Table × Option PrivateKey × Option Error :=
  let q := insertUserRoomKeySQL t userNID roomNID key (Public key)
  (q.1, InsertUserRoomPrivateKeyOf (.row q.2))

/-- The body of `InsertUserRoomPublicKey` after the statement ran. -/
def InsertUserRoomPublicKeyOf (o : RowOutcome) : Option PublicKey × Option Error :=
  o.Scan

/-- The method `InsertUserRoomPublicKey` on a working database. -/
def InsertUserRoomPublicKey (t : Table)
    (userNID : EventStateKeyNID) (roomNID : RoomNID) (key : PublicKey) :
    Table × Option PublicKey × Option Error :=
  let q := insertUserRoomPublicKeySQL t userNID roomNID key
  (q.1, InsertUserRoomPublicKeyOf (.row (some q.2)))

/-- The body of `SelectUserRoomPrivateKey` after the statement ran:
`if errors.Is(err, sql.ErrNoRows) { return nil, nil }; return result, err`. -/
def SelectUserRoomPrivateKeyOf (o : RowOutcome) : Option PrivateKey × Option Error :=
  let (result, err) := o.Scan
  if err = some Error.ErrNoRows then (none, none) else (result, err)

/-- The method `SelectUserRoomPrivateKey` on a working database. -/
def SelectUserRoomPrivateKey (t : Table)
    (userNID : EventStateKeyNID) (roomNID : RoomNID) : Option PrivateKey × Option Error :=
  SelectUserRoomPrivateKeyOf (selectUserRoomKeySQL t userNID roomNID)

/-- A Go `map[string]types.EventStateKeyNID`, by its lookup function. -/
abbrev NIDMap := Bytes → Option EventStateKeyNID

/-- The expression `make(map[string]types.EventStateKeyNID, n)`. -/
def NIDMap.empty : NIDMap := fun _ => none

/-- The assignment `result[string(publicKey)] = userNID`. -/
def NIDMap.set (m : NIDMap) (publicKey : Bytes) (userNID : EventStateKeyNID) : NIDMap :=
  fun k => if k = publicKey then some userNID else m k

/-- What `txn.Prepare` and `QueryContext` hand to the row loop: an error or the
result rows. -/
inductive RowsOutcome where
  | failed (msg : String)
  | rows (rs : List (EventStateKeyNID × Bytes))

/-- The body of `BulkSelectUserNIDs` after the statement was prepared and run: the
error returns `return nil, err`, and the loop
`for rows.Next() { ...; result[string(publicKey)] = userNID }`. -/
def BulkSelectUserNIDsOf : RowsOutcome → Option NIDMap × Option Error
  | .failed msg => (none, some (.Driver msg))
  | .rows rs => (some (rs.foldl (fun result r => result.set r.2 r.1) NIDMap.empty), none)

/-- The limit of SQLite on the number of parameters bound in one statement
(`SQLITE_MAX_VARIABLE_NUMBER`, 32766 in the default build). -/
def SQLITE_MAX_VARIABLE_NUMBER : Nat := 32766

/-- The calls `txn.Prepare(selectSQL)` and `stmt.QueryContext(ctx, params...)` of
`BulkSelectUserNIDs`: the statement text has one placeholder per sender key, so
preparing it fails with "too many SQL variables" when there are more sender
keys than SQLite allows; otherwise the query yields the result rows. -/
def queryUserNIDs (t : Table) (senderKeys : List Bytes) : RowsOutcome :=
  if SQLITE_MAX_VARIABLE_NUMBER < senderKeys.length then
    .failed "too many SQL variables"
  else
    .rows (selectUserNIDsSQL t senderKeys)

/-- The method `BulkSelectUserNIDs` on a working database: `if err != nil { return
nil, err }` after `txn.Prepare`, then the row loop. -/
def BulkSelectUserNIDs (t : Table) (senderKeys : List Bytes) : Option NIDMap × Option Error :=
  BulkSelectUserNIDsOf (queryUserNIDs t senderKeys)

/-- The key set and values of a returned map: `m[k]` when the map exists. -/
def lookupNID (res : Option NIDMap × Option Error) (k : Bytes) : Option EventStateKeyNID :=
  match res.1 with
  | some m => m k
  | none => none

/-! ## `LeaveRoomByID` -/

/-- The constant `http.StatusOK`. -/
def StatusOK : Int := 200

/-- The constant `http.StatusBadRequest`. -/
def StatusBadRequest : Int := 400

/-- The values `LeaveRoomByID` puts in the `JSON` field of its response:
`spec.Unknown(msg)`, `spec.LeaveServerNoticeError()` and `struct{}{}`. -/
inductive JSONValue where
  | Unknown (msg : String)
  | LeaveServerNoticeError
  | emptyStruct
deriving DecidableEq, Repr

/-- The type `util.JSONResponse`, with the two fields the handler sets. -/
structure JSONResponse where
  Code : Int
  JSON : JSONValue
deriving DecidableEq, Repr

/-- The type `roomserverAPI.SenderUserIDPair`. -/
structure SenderUserIDPair (SenderID UserID : Type) where
  SenderID : SenderID
  UserID : UserID

/-- The type `roomserverAPI.PerformLeaveRequest`, with the fields the handler sets. -/
structure PerformLeaveRequest (SenderID UserID : Type) where
  RoomID : String
  Leaver : SenderUserIDPair SenderID UserID

/-- The type `roomserverAPI.PerformLeaveResponse`, with the field the handler reads. -/
structure PerformLeaveResponse where
  Code : Int
deriving DecidableEq, Repr

/-- The collaborators of `LeaveRoomByID`: `spec.NewUserID` and the two methods of
`roomserverAPI.ClientRoomserverAPI` it calls.  A Go `error` is kept by its
message (`err.Error()`); `PerformLeave` receives the zero response through a
pointer and returns it as left by the engine. -/
structure LeaveEnv (SenderID UserID : Type) where
  NewUserID : String → Bool → Except String UserID
  QuerySenderIDForUser : String → UserID → Except String SenderID
  PerformLeave : PerformLeaveRequest SenderID UserID → PerformLeaveResponse →
    PerformLeaveResponse × Option String

/-- The handler `LeaveRoomByID`; `deviceUserID` is `device.UserID`. -/
def LeaveRoomByID {SenderID UserID : Type} (env : LeaveEnv SenderID UserID)
    (deviceUserID : String) (roomID : String) : JSONResponse :=
  match env.NewUserID deviceUserID true with
  | .error _ =>
    { Code := StatusBadRequest, JSON := .Unknown "device userID is invalid" }
  | .ok userID =>
    match env.QuerySenderIDForUser roomID userID with
    | .error _ =>
      { Code := StatusBadRequest, JSON := .Unknown "could not find senderID for this user" }
    | .ok senderID =>
      let leaveReq : PerformLeaveRequest SenderID UserID :=
        { RoomID := roomID, Leaver := { SenderID := senderID, UserID := userID } }
      let leaveRes : PerformLeaveResponse := { Code := 0 }
      match env.PerformLeave leaveReq leaveRes with
      | (leaveRes, some err) =>
        if leaveRes.Code ≠ 0 then
          { Code := leaveRes.Code, JSON := .LeaveServerNoticeError }
        else
          { Code := StatusBadRequest, JSON := .Unknown err }
      | (_, none) =>
        { Code := StatusOK, JSON := .emptyStruct }

/-! ## Sequences of store calls -/

/-- A mutating call on the store. -/
inductive Call where
  | insertPrivateKey (userNID : EventStateKeyNID) (roomNID : RoomNID) (key : PrivateKey)
  | insertPublicKey (userNID : EventStateKeyNID) (roomNID : RoomNID) (key : PublicKey)
deriving DecidableEq, Repr

/-- The table after one call. -/
def Call.apply (Public : PrivateKey → PublicKey) (t : Table) : Call → Table
  | .insertPrivateKey u r k => (InsertUserRoomPrivateKey Public t u r k).1
  | .insertPublicKey u r k => (InsertUserRoomPublicKey t u r k).1

/-- The table after a sequence of calls, starting from `t`. -/
def runCalls (Public : PrivateKey → PublicKey) (t : Table) (cs : List Call) : Table :=
  cs.foldl (Call.apply Public) t

/-- The store states reachable from the empty table. -/
def Reachable (Public : PrivateKey → PublicKey) (t : Table) : Prop :=
  ∃ cs : List Call, runCalls Public [] cs = t

/-- The results of running `InsertUserRoomPrivateKey` for one pair once per
candidate key, in the order the statements take effect, with the final table. -/
def insertAll (Public : PrivateKey → PublicKey) (userNID : EventStateKeyNID) (roomNID : RoomNID) :
    Table → List PrivateKey → Table × List (Option PrivateKey × Option Error)
  | t, [] => (t, [])
  | t, k :: ks =>
    let r := InsertUserRoomPrivateKey Public t userNID roomNID k
    let rest := insertAll Public userNID roomNID r.1 ks
    (rest.1, r.2 :: rest.2)

/-- The number of rows stored under a primary key. -/
def Table.countPK (t : Table) (userNID : EventStateKeyNID) (roomNID : RoomNID) : Nat :=
  List.countP (fun row => row.hasPK userNID roomNID) t

/-! ## Concrete inputs -/

/-- A derivation of the public half used for concrete evaluation: the last half
of the key bytes. -/
def samplePublic (k : PrivateKey) : PublicKey := k.drop 2

/-- A stand-in for `spec.NewUserID` used for concrete evaluation: it accepts
exactly the identifier `@alice:example.org`. -/
def sampleNewUserID (id : String) (_allowHistoricalIDs : Bool) : Except String String :=
  if id = "@alice:example.org" then .ok id else .error "invalid user ID"

/-- A stand-in for `QuerySenderIDForUser` used for concrete evaluation: the user
has a sender ID only in the room `!joined:example.org`. -/
def sampleQuerySenderIDForUser (roomID : String) (userID : String) : Except String String :=
  if roomID = "!joined:example.org" then .ok userID else .error "no sender ID"

/-- A concrete environment whose `PerformLeave` always reports `outcome`. -/
def sampleEnv (outcome : PerformLeaveResponse × Option String) : LeaveEnv String String where
  NewUserID := sampleNewUserID
  QuerySenderIDForUser := sampleQuerySenderIDForUser
  PerformLeave := fun _ _ => outcome

/-- The invariant of claim C8: every row that holds a private key holds the public
key derived from it. -/
def KeysPaired (Public : PrivateKey → PublicKey) (t : Table) : Prop :=
  ∀ row ∈ t, ∀ k, row.pseudo_id_key = some k → row.pseudo_id_pub_key = Public k

/-- The property of claim C1 at one input: two get-or-create calls both return
without error, they return the same key, a following read returns that key
without error, and the key is the first candidate when the pair had no row. -/
def IdempotentCreation (Public : PrivateKey → PublicKey) (t : Table)
    (userNID : EventStateKeyNID) (roomNID : RoomNID) (k1 k2 : PrivateKey) : Prop :=
  let c1 := InsertUserRoomPrivateKey Public t userNID roomNID k1
  let c2 := InsertUserRoomPrivateKey Public c1.1 userNID roomNID k2
  c1.2.2 = none ∧ c2.2.2 = none ∧ c2.2.1 = c1.2.1 ∧
  SelectUserRoomPrivateKey c2.1 userNID roomNID = (c1.2.1, none) ∧
  (t.lookup userNID roomNID = none → c1.2.1 = some k1)

/-! ## Facts about the statements -/

theorem hasPK_iff (row : Row) (u : EventStateKeyNID) (r : RoomNID) :
    row.hasPK u r = true ↔ row.user_nid = u ∧ row.room_nid = r := by
  simp [Row.hasPK]

theorem map_reassert_key (t : Table) (u : EventStateKeyNID) (r : RoomNID) :
    t.map (fun row =>
        if row.hasPK u r then { row with pseudo_id_key := row.pseudo_id_key } else row) = t := by
  have h : (fun row : Row =>
      if row.hasPK u r then { row with pseudo_id_key := row.pseudo_id_key } else row) = id := by
    funext row
    split <;> rfl
  rw [h, List.map_id]

theorem map_reassert_pub (t : Table) (u : EventStateKeyNID) (r : RoomNID) :
    t.map (fun row =>
        if row.hasPK u r then { row with pseudo_id_pub_key := row.pseudo_id_pub_key }
        else row) = t := by
  have h : (fun row : Row =>
      if row.hasPK u r then { row with pseudo_id_pub_key := row.pseudo_id_pub_key }
      else row) = id := by
    funext row
    split <;> rfl
  rw [h, List.map_id]

theorem insertUserRoomKeySQL_conflict {t : Table} {u : EventStateKeyNID} {r : RoomNID}
    {old : Row} (h : t.lookup u r = some old) (key pub : Bytes) :
    insertUserRoomKeySQL t u r key pub = (t, old.pseudo_id_key) := by
  simp only [insertUserRoomKeySQL, h, map_reassert_key]

theorem insertUserRoomKeySQL_fresh {t : Table} {u : EventStateKeyNID} {r : RoomNID}
    (h : t.lookup u r = none) (key pub : Bytes) :
    insertUserRoomKeySQL t u r key pub =
      (t ++ [{ user_nid := u, room_nid := r, pseudo_id_key := some key,
               pseudo_id_pub_key := pub }], some key) := by
  simp only [insertUserRoomKeySQL, h]

theorem insertUserRoomPublicKeySQL_conflict {t : Table} {u : EventStateKeyNID} {r : RoomNID}
    {old : Row} (h : t.lookup u r = some old) (key : Bytes) :
    insertUserRoomPublicKeySQL t u r key = (t, old.pseudo_id_pub_key) := by
  simp only [insertUserRoomPublicKeySQL, h, map_reassert_pub]

theorem insertUserRoomPublicKeySQL_fresh {t : Table} {u : EventStateKeyNID} {r : RoomNID}
    (h : t.lookup u r = none) (key : Bytes) :
    insertUserRoomPublicKeySQL t u r key =
      (t ++ [{ user_nid := u, room_nid := r, pseudo_id_key := none,
               pseudo_id_pub_key := key }], key) := by
  simp only [insertUserRoomPublicKeySQL, h]

theorem lookup_append_fresh {t : Table} {u : EventStateKeyNID} {r : RoomNID}
    (h : t.lookup u r = none) (key : Option Bytes) (pub : Bytes) :
    Table.lookup (t ++ [{ user_nid := u, room_nid := r, pseudo_id_key := key,
                          pseudo_id_pub_key := pub }]) u r =
      some { user_nid := u, room_nid := r, pseudo_id_key := key, pseudo_id_pub_key := pub } := by
  unfold Table.lookup at h ⊢
  rw [List.find?_append, h]
  simp [Row.hasPK]

theorem lookup_mem {t : Table} {u : EventStateKeyNID} {r : RoomNID} {row : Row}
    (h : t.lookup u r = some row) : row ∈ t ∧ row.user_nid = u ∧ row.room_nid = r := by
  unfold Table.lookup at h
  refine ⟨List.mem_of_find?_eq_some h, ?_⟩
  have := List.find?_some h
  exact (hasPK_iff row u r).1 this

theorem countPK_eq_zero {t : Table} {u : EventStateKeyNID} {r : RoomNID}
    (h : t.lookup u r = none) : t.countPK u r = 0 := by
  unfold Table.lookup at h
  unfold Table.countPK
  rw [List.countP_eq_zero]
  intro row hrow
  have := List.find?_eq_none.1 h row hrow
  simpa using this

/-! ## Get-or-create of the private key -/

theorem InsertUserRoomPrivateKey_fresh (Public : PrivateKey → PublicKey) {t : Table}
    {u : EventStateKeyNID} {r : RoomNID} (h : t.lookup u r = none) (k : PrivateKey) :
    InsertUserRoomPrivateKey Public t u r k =
      (t ++ [{ user_nid := u, room_nid := r, pseudo_id_key := some k,
               pseudo_id_pub_key := Public k }], some k, none) := by
  simp only [InsertUserRoomPrivateKey, insertUserRoomKeySQL_fresh h,
    InsertUserRoomPrivateKeyOf, RowOutcome.Scan]

theorem InsertUserRoomPrivateKey_stored (Public : PrivateKey → PublicKey) {t : Table}
    {u : EventStateKeyNID} {r : RoomNID} {old : Row} {key : Bytes}
    (h : t.lookup u r = some old) (hk : old.pseudo_id_key = some key) (k : PrivateKey) :
    InsertUserRoomPrivateKey Public t u r k = (t, some key, none) := by
  simp only [InsertUserRoomPrivateKey, insertUserRoomKeySQL_conflict h,
    InsertUserRoomPrivateKeyOf, hk, RowOutcome.Scan]

theorem InsertUserRoomPrivateKey_publicOnly (Public : PrivateKey → PublicKey) {t : Table}
    {u : EventStateKeyNID} {r : RoomNID} {old : Row}
    (h : t.lookup u r = some old) (hk : old.pseudo_id_key = none) (k : PrivateKey) :
    InsertUserRoomPrivateKey Public t u r k = (t, none, some Error.UnsupportedScanNil) := by
  simp only [InsertUserRoomPrivateKey, insertUserRoomKeySQL_conflict h,
    InsertUserRoomPrivateKeyOf, hk, RowOutcome.Scan]

theorem SelectUserRoomPrivateKey_stored {t : Table}
    {u : EventStateKeyNID} {r : RoomNID} {old : Row} {key : Bytes}
    (h : t.lookup u r = some old) (hk : old.pseudo_id_key = some key) :
    SelectUserRoomPrivateKey t u r = (some key, none) := by
  simp [SelectUserRoomPrivateKey, selectUserRoomKeySQL, h, hk, SelectUserRoomPrivateKeyOf,
    RowOutcome.Scan]

theorem SelectUserRoomPrivateKey_noRow {t : Table}
    {u : EventStateKeyNID} {r : RoomNID} (h : t.lookup u r = none) :
    SelectUserRoomPrivateKey t u r = (none, none) := by
  simp [SelectUserRoomPrivateKey, selectUserRoomKeySQL, h, SelectUserRoomPrivateKeyOf,
    RowOutcome.Scan]

theorem SelectUserRoomPrivateKey_publicOnly {t : Table}
    {u : EventStateKeyNID} {r : RoomNID} {old : Row}
    (h : t.lookup u r = some old) (hk : old.pseudo_id_key = none) :
    SelectUserRoomPrivateKey t u r = (none, some Error.UnsupportedScanNil) := by
  simp [SelectUserRoomPrivateKey, selectUserRoomKeySQL, h, hk, SelectUserRoomPrivateKeyOf,
    RowOutcome.Scan]

/-- Claim C1, as amended: in every store state in which the pair has no row, or
has a row that holds a private key, two calls of `InsertUserRoomPrivateKey` with
candidates `k1` and `k2` return the same key without error, a following
`SelectUserRoomPrivateKey` returns that key, and the key is `k1` when the pair
had no row. -/
theorem insertUserRoomPrivateKey_idempotent (Public : PrivateKey → PublicKey) (t : Table)
    (userNID : EventStateKeyNID) (roomNID : RoomNID) (k1 k2 : PrivateKey)
    (h : ∀ row, t.lookup userNID roomNID = some row → row.pseudo_id_key ≠ none) :
    IdempotentCreation Public t userNID roomNID k1 k2 := by
  unfold IdempotentCreation
  cases hl : t.lookup userNID roomNID with
  | none =>
    have hnew := lookup_append_fresh hl (some k1) (Public k1)
    rw [InsertUserRoomPrivateKey_fresh Public hl]
    simp only [InsertUserRoomPrivateKey_stored Public hnew rfl,
      SelectUserRoomPrivateKey_stored hnew rfl, and_self, implies_true]
  | some old =>
    cases hk : old.pseudo_id_key with
    | none => exact absurd hk (h old hl)
    | some key =>
      simp only [InsertUserRoomPrivateKey_stored Public hl hk,
        SelectUserRoomPrivateKey_stored hl hk, and_self, true_and]
      intro hn
      simp at hn

/-- Witness for C1: on the empty table the pair `(1, 1)` has no row, and the two
calls with candidates `[1, 2, 3, 4]` and `[5, 6, 7, 8]` agree. -/
theorem insertUserRoomPrivateKey_idempotent_witness :
    Table.lookup [] 1 1 = none ∧
    IdempotentCreation samplePublic [] 1 1 [1, 2, 3, 4] [5, 6, 7, 8] :=
  ⟨rfl,
   insertUserRoomPrivateKey_idempotent samplePublic [] 1 1 [1, 2, 3, 4] [5, 6, 7, 8]
     (by simp [Table.lookup])⟩

/-- Counterexample to C1 as stated: after `InsertUserRoomPublicKey(1, 1, [9])` the
pair `(1, 1)` has a row without private key, and `InsertUserRoomPrivateKey` for
that pair returns an error, so the property fails in that store state. -/
theorem idempotentCreation_fails_on_publicOnly :
    ¬ IdempotentCreation samplePublic (InsertUserRoomPublicKey [] 1 1 [9]).1 1 1
        [1, 2, 3, 4] [5, 6, 7, 8] := by
  intro h
  have herr : (InsertUserRoomPrivateKey samplePublic (InsertUserRoomPublicKey [] 1 1 [9]).1 1 1
      [1, 2, 3, 4]).2.2 = some Error.UnsupportedScanNil := by decide
  have hnil := h.1
  rw [herr] at hnil
  exact absurd hnil (by decide)

/-! ## The public-key path -/

/-- Claim C2: when the pair already has a row, `InsertUserRoomPublicKey` with any
key `q` returns the stored public key without error and leaves the whole table
(so that row's public and private key) unchanged; when the pair has no row, the
call returns `q` without error and afterwards the pair's row is `(q, no private
key)`, appended to the otherwise unchanged table. -/
theorem insertUserRoomPublicKey_first_writer_wins (t : Table)
    (userNID : EventStateKeyNID) (roomNID : RoomNID) (q : PublicKey) :
    match t.lookup userNID roomNID with
    | some row =>
      InsertUserRoomPublicKey t userNID roomNID q = (t, some row.pseudo_id_pub_key, none)
    | none =>
      InsertUserRoomPublicKey t userNID roomNID q =
        (t ++ [{ user_nid := userNID, room_nid := roomNID, pseudo_id_key := none,
                 pseudo_id_pub_key := q }], some q, none) ∧
      (InsertUserRoomPublicKey t userNID roomNID q).1.lookup userNID roomNID =
        some { user_nid := userNID, room_nid := roomNID, pseudo_id_key := none,
               pseudo_id_pub_key := q } := by
  cases hl : t.lookup userNID roomNID with
  | some row =>
    simp only [InsertUserRoomPublicKey, insertUserRoomPublicKeySQL_conflict hl,
      InsertUserRoomPublicKeyOf, RowOutcome.Scan]
  | none =>
    have hnew := lookup_append_fresh hl none q
    simp only [InsertUserRoomPublicKey, insertUserRoomPublicKeySQL_fresh hl,
      InsertUserRoomPublicKeyOf, RowOutcome.Scan, hnew, and_self]

/-! ## Reading the private key -/

/-- Claim C3, evaluated at the failing input: after `InsertUserRoomPublicKey(1, 1, [9])`
on the empty table the pair `(1, 1)` has a row without private key, the
statement itself reports no fault (it yields one row whose column is `NULL`),
and `SelectUserRoomPrivateKey(1, 1)` returns a nil key with a non-nil error. -/
theorem selectUserRoomPrivateKey_publicOnly_errors :
    (InsertUserRoomPublicKey [] 1 1 [9]).1 =
      [{ user_nid := 1, room_nid := 1, pseudo_id_key := none, pseudo_id_pub_key := [9] }] ∧
    selectUserRoomKeySQL (InsertUserRoomPublicKey [] 1 1 [9]).1 1 1 = RowOutcome.row none ∧
    SelectUserRoomPrivateKey (InsertUserRoomPublicKey [] 1 1 [9]).1 1 1 =
      (none, some Error.UnsupportedScanNil) := by
  decide

/-- The parts of C3 that hold: a driver fault is returned as the error, an empty
result set gives a nil key with a nil error, and a stored key is returned with
a nil error. -/
theorem SelectUserRoomPrivateKeyOf_cases :
    (∀ msg, SelectUserRoomPrivateKeyOf (.failed msg) = (none, some (Error.Driver msg))) ∧
    SelectUserRoomPrivateKeyOf .noRows = (none, none) ∧
    (∀ key, SelectUserRoomPrivateKeyOf (.row (some key)) = (some key, none)) := by
  refine ⟨fun msg => ?_, ?_, fun key => ?_⟩ <;>
    simp [SelectUserRoomPrivateKeyOf, RowOutcome.Scan]

/-! ## Get-or-create on a row without private key -/

/-- Claim C10, as amended: when the pair has a row with a public key and no
private key, `InsertUserRoomPrivateKey` with any candidate returns a nil key and
leaves the table unchanged (the row still has no private key and the same
public key), and a following `SelectUserRoomPrivateKey` also returns a nil key. -/
theorem insertUserRoomPrivateKey_publicOnly_row (Public : PrivateKey → PublicKey) (t : Table)
    (userNID : EventStateKeyNID) (roomNID : RoomNID) (row : Row) (k : PrivateKey)
    (hrow : t.lookup userNID roomNID = some row) (hkey : row.pseudo_id_key = none) :
    (InsertUserRoomPrivateKey Public t userNID roomNID k).2.1 = none ∧
    (InsertUserRoomPrivateKey Public t userNID roomNID k).1 = t ∧
    (InsertUserRoomPrivateKey Public t userNID roomNID k).1.lookup userNID roomNID = some row ∧
    (SelectUserRoomPrivateKey (InsertUserRoomPrivateKey Public t userNID roomNID k).1
      userNID roomNID).1 = none := by
  rw [InsertUserRoomPrivateKey_publicOnly Public hrow hkey]
  refine ⟨rfl, rfl, hrow, ?_⟩
  rw [SelectUserRoomPrivateKey_publicOnly hrow hkey]

/-- Witness for C10: the table holding the single row `(1, 1, NULL, [9])`. -/
theorem insertUserRoomPrivateKey_publicOnly_row_witness :
    Table.lookup
      [{ user_nid := 1, room_nid := 1, pseudo_id_key := none, pseudo_id_pub_key := [9] }] 1 1 =
      some { user_nid := 1, room_nid := 1, pseudo_id_key := none, pseudo_id_pub_key := [9] } ∧
    (InsertUserRoomPrivateKey samplePublic
        [{ user_nid := 1, room_nid := 1, pseudo_id_key := none, pseudo_id_pub_key := [9] }]
        1 1 [1, 2, 3, 4]).2.1 = none ∧
    (InsertUserRoomPrivateKey samplePublic
        [{ user_nid := 1, room_nid := 1, pseudo_id_key := none, pseudo_id_pub_key := [9] }]
        1 1 [1, 2, 3, 4]).1 =
      [{ user_nid := 1, room_nid := 1, pseudo_id_key := none, pseudo_id_pub_key := [9] }] :=
  have h := insertUserRoomPrivateKey_publicOnly_row samplePublic
    [{ user_nid := 1, room_nid := 1, pseudo_id_key := none, pseudo_id_pub_key := [9] }]
    1 1 { user_nid := 1, room_nid := 1, pseudo_id_key := none, pseudo_id_pub_key := [9] }
    [1, 2, 3, 4] (by decide) rfl
  ⟨by decide, h.1, h.2.1⟩

/-- Counterexample to C10 as stated: on the table left by
`InsertUserRoomPublicKey(1, 1, [9])`, `InsertUserRoomPrivateKey(1, 1, [1, 2, 3, 4])`
returns a nil key together with a non-nil error, not a nil error. -/
theorem insertUserRoomPrivateKey_publicOnly_row_errors :
    (InsertUserRoomPrivateKey samplePublic (InsertUserRoomPublicKey [] 1 1 [9]).1 1 1
      [1, 2, 3, 4]).2 = (none, some Error.UnsupportedScanNil) ∧
    (InsertUserRoomPrivateKey samplePublic (InsertUserRoomPublicKey [] 1 1 [9]).1 1 1
      [1, 2, 3, 4]).2.2 ≠ none := by
  decide

/-! ## Reverse lookup -/

/-- The map built by the row loop, read at one key: the user of the last result
row with that key, or the initial entry when no result row has it. -/
theorem foldl_set_apply (rs : List (EventStateKeyNID × Bytes)) (m : NIDMap) (k : Bytes) :
    (rs.foldl (fun result r => result.set r.2 r.1) m) k =
      match (rs.reverse.find? (fun r => decide (r.2 = k))) with
      | some r => some r.1
      | none => m k := by
  induction rs generalizing m with
  | nil => simp
  | cons r rs ih =>
    rw [List.foldl_cons, ih, List.reverse_cons, List.find?_append]
    cases hf : rs.reverse.find? (fun r => decide (r.2 = k)) with
    | some r1 => simp
    | none =>
      by_cases hk : r.2 = k
      · simp [NIDMap.set, hk]
      · have hk2 : ¬ k = r.2 := fun h => hk h.symm
        simp [NIDMap.set, hk, hk2]

theorem mem_selectUserNIDsSQL (t : Table) (senderKeys : List Bytes)
    (u : EventStateKeyNID) (k : Bytes) :
    (u, k) ∈ selectUserNIDsSQL t senderKeys ↔
      k ∈ senderKeys ∧ ∃ row ∈ t, row.pseudo_id_pub_key = k ∧ row.user_nid = u := by
  simp only [selectUserNIDsSQL, List.mem_map, List.mem_filter, decide_eq_true_eq,
    Prod.mk.injEq]
  constructor
  · rintro ⟨row, ⟨hrow, hin⟩, hu, hk⟩
    exact ⟨hk ▸ hin, row, hrow, hk, hu⟩
  · rintro ⟨hin, row, hrow, hk, hu⟩
    exact ⟨row, ⟨hrow, hk ▸ hin⟩, hu, hk⟩

theorem BulkSelectUserNIDs_of_le (t : Table) (senderKeys : List Bytes)
    (hlen : senderKeys.length ≤ SQLITE_MAX_VARIABLE_NUMBER) :
    BulkSelectUserNIDs t senderKeys =
      (some ((selectUserNIDsSQL t senderKeys).foldl (fun result r => result.set r.2 r.1)
        NIDMap.empty), none) := by
  have h : ¬ SQLITE_MAX_VARIABLE_NUMBER < senderKeys.length := Nat.not_lt.2 hlen
  simp only [BulkSelectUserNIDs, queryUserNIDs, h, if_false, BulkSelectUserNIDsOf]

theorem BulkSelectUserNIDs_of_lt (t : Table) (senderKeys : List Bytes)
    (hlen : SQLITE_MAX_VARIABLE_NUMBER < senderKeys.length) :
    BulkSelectUserNIDs t senderKeys = (none, some (Error.Driver "too many SQL variables")) := by
  simp only [BulkSelectUserNIDs, queryUserNIDs, hlen, if_true, BulkSelectUserNIDsOf]

theorem lookupNID_eq_some (t : Table) (senderKeys : List Bytes)
    (k : Bytes) (u : EventStateKeyNID)
    (h : lookupNID (BulkSelectUserNIDs t senderKeys) k = some u) :
    k ∈ senderKeys ∧ ∃ row ∈ t, row.pseudo_id_pub_key = k ∧ row.user_nid = u := by
  by_cases hlen : senderKeys.length ≤ SQLITE_MAX_VARIABLE_NUMBER
  · rw [BulkSelectUserNIDs_of_le t senderKeys hlen] at h
    simp only [lookupNID, foldl_set_apply] at h
    cases hf : (selectUserNIDsSQL t senderKeys).reverse.find? (fun r => decide (r.2 = k)) with
    | none => simp [hf, NIDMap.empty] at h
    | some r =>
      rw [hf] at h
      have hmem : r ∈ selectUserNIDsSQL t senderKeys :=
        List.mem_reverse.1 (List.mem_of_find?_eq_some hf)
      have hk : r.2 = k := by simpa using List.find?_some hf
      have hu : r.1 = u := by simpa using h
      have : (u, k) ∈ selectUserNIDsSQL t senderKeys := by
        rw [← hu, ← hk]; exact hmem
      exact (mem_selectUserNIDsSQL t senderKeys u k).1 this
  · rw [BulkSelectUserNIDs_of_lt t senderKeys (Nat.lt_of_not_le hlen)] at h
    simp [lookupNID] at h

theorem lookupNID_isSome (t : Table) (senderKeys : List Bytes) (k : Bytes)
    (hlen : senderKeys.length ≤ SQLITE_MAX_VARIABLE_NUMBER)
    (hin : k ∈ senderKeys) (row : Row) (hrow : row ∈ t) (hk : row.pseudo_id_pub_key = k) :
    ∃ u, lookupNID (BulkSelectUserNIDs t senderKeys) k = some u := by
  rw [BulkSelectUserNIDs_of_le t senderKeys hlen]
  simp only [lookupNID, foldl_set_apply]
  cases hf : (selectUserNIDsSQL t senderKeys).reverse.find? (fun r => decide (r.2 = k)) with
  | some r => exact ⟨r.1, rfl⟩
  | none =>
    exfalso
    have hmem : (row.user_nid, k) ∈ (selectUserNIDsSQL t senderKeys).reverse :=
      List.mem_reverse.2 ((mem_selectUserNIDsSQL t senderKeys row.user_nid k).2
        ⟨hin, row, hrow, hk, rfl⟩)
    have := List.find?_eq_none.1 hf _ hmem
    simp at this

/-- Claim C4, as amended: for every table and every list of sender keys that is
not longer than `SQLITE_MAX_VARIABLE_NUMBER`, `BulkSelectUserNIDs` returns a map
and a nil error; a key is in the map exactly when it is one of the sender keys
and the public key of some stored row; and every entry maps its key to the
`user_nid` of a stored row with that public key. -/
theorem bulkSelectUserNIDs_correct (t : Table) (senderKeys : List Bytes)
    (hlen : senderKeys.length ≤ SQLITE_MAX_VARIABLE_NUMBER) :
    (BulkSelectUserNIDs t senderKeys).2 = none ∧
    (BulkSelectUserNIDs t senderKeys).1.isSome = true ∧
    (∀ k, (lookupNID (BulkSelectUserNIDs t senderKeys) k).isSome = true ↔
      (k ∈ senderKeys ∧ ∃ row ∈ t, row.pseudo_id_pub_key = k)) ∧
    (∀ k u, lookupNID (BulkSelectUserNIDs t senderKeys) k = some u →
      ∃ row ∈ t, row.pseudo_id_pub_key = k ∧ row.user_nid = u) := by
  refine ⟨?_, ?_, fun k => ⟨fun h => ?_, fun h => ?_⟩, fun k u h => ?_⟩
  · rw [BulkSelectUserNIDs_of_le t senderKeys hlen]
  · rw [BulkSelectUserNIDs_of_le t senderKeys hlen]; rfl
  · obtain ⟨u, hu⟩ := Option.isSome_iff_exists.1 h
    obtain ⟨hin, row, hrow, hk, -⟩ := lookupNID_eq_some t senderKeys k u hu
    exact ⟨hin, row, hrow, hk⟩
  · obtain ⟨hin, row, hrow, hk⟩ := h
    obtain ⟨u, hu⟩ := lookupNID_isSome t senderKeys k hlen hin row hrow hk
    rw [hu]; rfl
  · exact (lookupNID_eq_some t senderKeys k u h).2

/-- Witness for C4: the store of the test scenario, asked for the public key of
user 1, the public key of user 2 and a key that is not stored. -/
theorem bulkSelectUserNIDs_correct_witness :
    [samplePublic [1, 2, 3, 4], samplePublic [9, 10, 11, 12], [0]].length ≤
      SQLITE_MAX_VARIABLE_NUMBER ∧
    (BulkSelectUserNIDs
      (runCalls samplePublic [] [.insertPrivateKey 1 1 [1, 2, 3, 4],
        .insertPrivateKey 2 1 [9, 10, 11, 12]])
      [samplePublic [1, 2, 3, 4], samplePublic [9, 10, 11, 12], [0]]).2 = none ∧
    (lookupNID (BulkSelectUserNIDs
      (runCalls samplePublic [] [.insertPrivateKey 1 1 [1, 2, 3, 4],
        .insertPrivateKey 2 1 [9, 10, 11, 12]])
      [samplePublic [1, 2, 3, 4], samplePublic [9, 10, 11, 12], [0]]) [0]).isSome = false :=
  ⟨by decide,
   (bulkSelectUserNIDs_correct
      (runCalls samplePublic [] [.insertPrivateKey 1 1 [1, 2, 3, 4],
        .insertPrivateKey 2 1 [9, 10, 11, 12]])
      [samplePublic [1, 2, 3, 4], samplePublic [9, 10, 11, 12], [0]] (by decide)).1,
   by decide⟩

/-- Counterexample to C4 as stated: with the row `(1, 1, NULL, [7])` stored and
the 32767 distinct sender keys `[0], [1], ..., [32766]`, which include `[7]`,
preparing the statement fails, and `BulkSelectUserNIDs` returns a nil map
together with a non-nil error. -/
theorem bulkSelectUserNIDs_too_many_keys :
    ((List.range 32767).map fun i => [i]).length = 32767 ∧
    ([7] : Bytes) ∈ (List.range 32767).map (fun i => [i]) ∧
    (BulkSelectUserNIDs (InsertUserRoomPublicKey [] 1 1 [7]).1
      ((List.range 32767).map fun i => [i])).2 =
        some (Error.Driver "too many SQL variables") ∧
    (BulkSelectUserNIDs (InsertUserRoomPublicKey [] 1 1 [7]).1
      ((List.range 32767).map fun i => [i])).1.isSome = false := by
  have hlen : ((List.range 32767).map fun i => ([i] : Bytes)).length = 32767 := by
    rw [List.length_map, List.length_range]
  have hlt : SQLITE_MAX_VARIABLE_NUMBER < ((List.range 32767).map fun i => ([i] : Bytes)).length := by
    rw [hlen]; decide
  refine ⟨hlen, ?_, ?_, ?_⟩
  · exact List.mem_map.2 ⟨7, List.mem_range.2 (by decide), rfl⟩
  · rw [BulkSelectUserNIDs_of_lt _ _ hlt]
  · rw [BulkSelectUserNIDs_of_lt _ _ hlt]; rfl

/-- Claim C5, as amended: in every store state, for every stored row whose
public key is not also stored by a row of another user, `BulkSelectUserNIDs`
called with that public key returns a map that sends it to that row's
`user_nid`. -/
theorem bulkSelectUserNIDs_own_key (t : Table) (row : Row) (hrow : row ∈ t)
    (huniq : ∀ other ∈ t, other.pseudo_id_pub_key = row.pseudo_id_pub_key →
      other.user_nid = row.user_nid) :
    lookupNID (BulkSelectUserNIDs t [row.pseudo_id_pub_key]) row.pseudo_id_pub_key =
      some row.user_nid := by
  obtain ⟨u, hu⟩ := lookupNID_isSome t [row.pseudo_id_pub_key] row.pseudo_id_pub_key
    (by simp [SQLITE_MAX_VARIABLE_NUMBER]) (List.mem_singleton.2 rfl) row hrow rfl
  obtain ⟨-, other, hother, hk, hou⟩ := lookupNID_eq_some t _ _ u hu
  rw [hu, ← hou, huniq other hother hk]

/-- Witness for C5: after `InsertUserRoomPrivateKey(1, 1, [1, 2, 3, 4])` and
`InsertUserRoomPublicKey(2, 1, [7])` the row of user 2 is found through its
public key `[7]`. -/
theorem bulkSelectUserNIDs_own_key_witness :
    lookupNID
      (BulkSelectUserNIDs
        (runCalls samplePublic [] [.insertPrivateKey 1 1 [1, 2, 3, 4], .insertPublicKey 2 1 [7]])
        [[7]]) [7] = some 2 :=
  bulkSelectUserNIDs_own_key
    (runCalls samplePublic [] [.insertPrivateKey 1 1 [1, 2, 3, 4], .insertPublicKey 2 1 [7]])
    { user_nid := 2, room_nid := 1, pseudo_id_key := none, pseudo_id_pub_key := [7] }
    (by decide) (by decide)

/-- Counterexample to C5 as stated: after `InsertUserRoomPublicKey(1, 1, [7])` and
`InsertUserRoomPublicKey(2, 1, [7])` the row `(1, 1, NULL, [7])` is stored, yet
`BulkSelectUserNIDs` called with `[7]` sends `[7]` to user 2, not to user 1. -/
theorem bulkSelectUserNIDs_shared_key :
    ({ user_nid := 1, room_nid := 1, pseudo_id_key := none, pseudo_id_pub_key := [7] } : Row) ∈
      runCalls samplePublic [] [.insertPublicKey 1 1 [7], .insertPublicKey 2 1 [7]] ∧
    Reachable samplePublic
      (runCalls samplePublic [] [.insertPublicKey 1 1 [7], .insertPublicKey 2 1 [7]]) ∧
    lookupNID
      (BulkSelectUserNIDs
        (runCalls samplePublic [] [.insertPublicKey 1 1 [7], .insertPublicKey 2 1 [7]])
        [[7]]) [7] = some 2 ∧
    lookupNID
      (BulkSelectUserNIDs
        (runCalls samplePublic [] [.insertPublicKey 1 1 [7], .insertPublicKey 2 1 [7]])
        [[7]]) [7] ≠ some 1 :=
  ⟨by decide, ⟨_, rfl⟩, by decide, by decide⟩

/-! ## `LeaveRoomByID` -/

/-- Claim C6: when the device user ID parses and the sender ID resolves, the
response of `LeaveRoomByID` follows the outcome of `PerformLeave`: no error gives
status 200 with the empty object; an error with a non-zero response code gives
that code with the leave-server-notice error (never an `Unknown` body); an error
with response code zero gives status 400 with `Unknown` carrying the error
message. -/
theorem leaveRoomByID_translates_result {SenderID UserID : Type}
    (env : LeaveEnv SenderID UserID) (deviceUserID roomID : String)
    (userID : UserID) (senderID : SenderID)
    (huser : env.NewUserID deviceUserID true = .ok userID)
    (hsender : env.QuerySenderIDForUser roomID userID = .ok senderID) :
    (∀ res, env.PerformLeave
        { RoomID := roomID, Leaver := { SenderID := senderID, UserID := userID } }
        { Code := 0 } = (res, none) →
      LeaveRoomByID env deviceUserID roomID = { Code := 200, JSON := .emptyStruct }) ∧
    (∀ res err, env.PerformLeave
        { RoomID := roomID, Leaver := { SenderID := senderID, UserID := userID } }
        { Code := 0 } = (res, some err) → res.Code ≠ 0 →
      LeaveRoomByID env deviceUserID roomID =
        { Code := res.Code, JSON := .LeaveServerNoticeError } ∧
      ∀ msg, (LeaveRoomByID env deviceUserID roomID).JSON ≠ .Unknown msg) ∧
    (∀ res err, env.PerformLeave
        { RoomID := roomID, Leaver := { SenderID := senderID, UserID := userID } }
        { Code := 0 } = (res, some err) → res.Code = 0 →
      LeaveRoomByID env deviceUserID roomID = { Code := 400, JSON := .Unknown err }) := by
  refine ⟨fun res h => ?_, fun res err h hc => ?_, fun res err h hc => ?_⟩
  · simp [LeaveRoomByID, huser, hsender, h, StatusOK]
  · have hresp : LeaveRoomByID env deviceUserID roomID =
        { Code := res.Code, JSON := .LeaveServerNoticeError } := by
      simp [LeaveRoomByID, huser, hsender, h, hc]
    refine ⟨hresp, fun msg => ?_⟩
    rw [hresp]
    simp
  · simp [LeaveRoomByID, huser, hsender, h, hc, StatusBadRequest]

/-- Claim C7, as amended: when the device user ID does not parse, the response is
status 400 with `Unknown "device userID is invalid"`; when it parses and the
sender ID does not resolve, the response is status 400 with
`Unknown "could not find senderID for this user"`. -/
theorem leaveRoomByID_rejects_with_unknown {SenderID UserID : Type}
    (env : LeaveEnv SenderID UserID) (deviceUserID roomID : String) :
    (∀ e, env.NewUserID deviceUserID true = .error e →
      LeaveRoomByID env deviceUserID roomID =
        { Code := 400, JSON := .Unknown "device userID is invalid" }) ∧
    (∀ userID e, env.NewUserID deviceUserID true = .ok userID →
      env.QuerySenderIDForUser roomID userID = .error e →
      LeaveRoomByID env deviceUserID roomID =
        { Code := 400, JSON := .Unknown "could not find senderID for this user" }) := by
  refine ⟨fun e h => ?_, fun userID e h hq => ?_⟩
  · simp [LeaveRoomByID, h, StatusBadRequest]
  · simp [LeaveRoomByID, h, hq, StatusBadRequest]

/-- Witness for C6: a caller that validates and resolves, with an engine that
succeeds, that rejects with code 403, and that fails without a code. -/
theorem leaveRoomByID_translates_result_witness :
    LeaveRoomByID (sampleEnv ({ Code := 0 }, none)) "@alice:example.org" "!joined:example.org" =
      { Code := 200, JSON := .emptyStruct } ∧
    LeaveRoomByID (sampleEnv ({ Code := 403 }, some "blocked")) "@alice:example.org"
        "!joined:example.org" = { Code := 403, JSON := .LeaveServerNoticeError } ∧
    LeaveRoomByID (sampleEnv ({ Code := 0 }, some "boom")) "@alice:example.org"
        "!joined:example.org" = { Code := 400, JSON := .Unknown "boom" } :=
  ⟨(leaveRoomByID_translates_result (sampleEnv ({ Code := 0 }, none)) "@alice:example.org"
      "!joined:example.org" "@alice:example.org" "@alice:example.org" rfl rfl).1
      { Code := 0 } rfl,
   ((leaveRoomByID_translates_result (sampleEnv ({ Code := 403 }, some "blocked"))
      "@alice:example.org" "!joined:example.org" "@alice:example.org" "@alice:example.org"
      rfl rfl).2.1 { Code := 403 } "blocked" rfl (by decide)).1,
   (leaveRoomByID_translates_result (sampleEnv ({ Code := 0 }, some "boom"))
      "@alice:example.org" "!joined:example.org" "@alice:example.org" "@alice:example.org"
      rfl rfl).2.2 { Code := 0 } "boom" rfl rfl⟩

/-- Witness for C7: a device user ID that does not parse, and a room in which the
parsed user has no sender ID. -/
theorem leaveRoomByID_rejects_with_unknown_witness :
    LeaveRoomByID (sampleEnv ({ Code := 0 }, none)) "not a user ID" "!joined:example.org" =
      { Code := 400, JSON := .Unknown "device userID is invalid" } ∧
    LeaveRoomByID (sampleEnv ({ Code := 0 }, none)) "@alice:example.org" "!other:example.org" =
      { Code := 400, JSON := .Unknown "could not find senderID for this user" } :=
  ⟨(leaveRoomByID_rejects_with_unknown (sampleEnv ({ Code := 0 }, none)) "not a user ID"
      "!joined:example.org").1 "invalid user ID" rfl,
   (leaveRoomByID_rejects_with_unknown (sampleEnv ({ Code := 0 }, none)) "@alice:example.org"
      "!other:example.org").2 "@alice:example.org" "no sender ID" rfl rfl⟩

/-- Counterexample to C7 as stated: for a device user ID that does not parse, the
body of the response is the generic `Unknown` error, the same shape as the
body produced for an engine failure, not a separate invalid-request shape. -/
theorem leaveRoomByID_invalid_caller_is_unknown :
    (sampleEnv ({ Code := 0 }, none)).NewUserID "not a user ID" true =
      .error "invalid user ID" ∧
    (LeaveRoomByID (sampleEnv ({ Code := 0 }, none)) "not a user ID"
      "!joined:example.org").JSON = .Unknown "device userID is invalid" ∧
    (LeaveRoomByID (sampleEnv ({ Code := 0 }, some "device userID is invalid"))
      "@alice:example.org" "!joined:example.org") =
    (LeaveRoomByID (sampleEnv ({ Code := 0 }, none)) "not a user ID" "!joined:example.org") :=
  ⟨rfl, rfl, rfl⟩

/-! ## Private keys stay paired with their public keys -/

theorem keysPaired_append {Public : PrivateKey → PublicKey} {t : Table} {new : Row}
    (ht : KeysPaired Public t)
    (hnew : ∀ k, new.pseudo_id_key = some k → new.pseudo_id_pub_key = Public k) :
    KeysPaired Public (t ++ [new]) := by
  intro row hrow k hk
  rcases List.mem_append.1 hrow with h | h
  · exact ht row h k hk
  · rw [List.mem_singleton.1 h] at hk ⊢
    exact hnew k hk

theorem keysPaired_apply {Public : PrivateKey → PublicKey} {t : Table}
    (ht : KeysPaired Public t) (c : Call) : KeysPaired Public (c.apply Public t) := by
  cases c with
  | insertPrivateKey u r k =>
    simp only [Call.apply, InsertUserRoomPrivateKey]
    cases hl : t.lookup u r with
    | some old => rw [insertUserRoomKeySQL_conflict hl]; exact ht
    | none =>
      rw [insertUserRoomKeySQL_fresh hl]
      refine keysPaired_append ht fun k1 hk1 => ?_
      simp only [Option.some.injEq] at hk1
      rw [hk1]
  | insertPublicKey u r k =>
    simp only [Call.apply, InsertUserRoomPublicKey]
    cases hl : t.lookup u r with
    | some old => rw [insertUserRoomPublicKeySQL_conflict hl]; exact ht
    | none =>
      rw [insertUserRoomPublicKeySQL_fresh hl]
      exact keysPaired_append ht fun k1 hk1 => by simp at hk1

theorem keysPaired_runCalls {Public : PrivateKey → PublicKey} (cs : List Call) {t : Table}
    (ht : KeysPaired Public t) : KeysPaired Public (runCalls Public t cs) := by
  induction cs generalizing t with
  | nil => exact ht
  | cons c cs ih => exact ih (keysPaired_apply ht c)

/-- Claim C8: in every store state reachable from the empty table by calls of
`InsertUserRoomPrivateKey` and `InsertUserRoomPublicKey`, every row that holds a
private key holds, as its (always present) public key, the public key derived
from that private key. -/
theorem reachable_keys_paired (Public : PrivateKey → PublicKey) (t : Table)
    (hreach : Reachable Public t) (row : Row) (hrow : row ∈ t) (k : PrivateKey)
    (hk : row.pseudo_id_key = some k) : row.pseudo_id_pub_key = Public k := by
  obtain ⟨cs, rfl⟩ := hreach
  have hempty : KeysPaired Public [] := fun row hrow => by simp at hrow
  exact keysPaired_runCalls cs hempty row hrow k hk

/-- Witness for C8: the store after a public-key insert for `(2, 1)` and two
private-key inserts for `(1, 1)`; the row of `(1, 1)` holds the first candidate
and its derived public key. -/
theorem reachable_keys_paired_witness :
    ({ user_nid := 1, room_nid := 1, pseudo_id_key := some [1, 2, 3, 4],
       pseudo_id_pub_key := [3, 4] } : Row) ∈
      runCalls samplePublic []
        [.insertPublicKey 2 1 [7], .insertPrivateKey 1 1 [1, 2, 3, 4],
         .insertPrivateKey 1 1 [5, 6, 7, 8]] ∧
    ([3, 4] : PublicKey) = samplePublic [1, 2, 3, 4] :=
  ⟨by decide,
   reachable_keys_paired samplePublic
    (runCalls samplePublic []
      [.insertPublicKey 2 1 [7], .insertPrivateKey 1 1 [1, 2, 3, 4],
       .insertPrivateKey 1 1 [5, 6, 7, 8]])
    ⟨_, rfl⟩
    { user_nid := 1, room_nid := 1, pseudo_id_key := some [1, 2, 3, 4],
      pseudo_id_pub_key := [3, 4] }
    (by decide) [1, 2, 3, 4] rfl⟩

/-! ## Racing get-or-create calls -/

theorem insertAll_stored (Public : PrivateKey → PublicKey) {t : Table}
    {u : EventStateKeyNID} {r : RoomNID} {old : Row} {key : Bytes}
    (h : t.lookup u r = some old) (hk : old.pseudo_id_key = some key) (ks : List PrivateKey) :
    insertAll Public u r t ks = (t, ks.map fun _ => (some key, none)) := by
  induction ks with
  | nil => rfl
  | cons k ks ih =>
    simp only [insertAll, InsertUserRoomPrivateKey_stored Public h hk, ih, List.map_cons]

theorem countPK_append_fresh {t : Table} {u : EventStateKeyNID} {r : RoomNID}
    (h : t.lookup u r = none) (key : Option Bytes) (pub : Bytes) :
    Table.countPK (t ++ [{ user_nid := u, room_nid := r, pseudo_id_key := key,
                           pseudo_id_pub_key := pub }]) u r = 1 := by
  have h0 := countPK_eq_zero h
  unfold Table.countPK at h0 ⊢
  rw [List.countP_append, h0]
  simp [Row.hasPK]

/-- Claim C9: when the pair has no row, any number `N ≥ 1` of
`InsertUserRoomPrivateKey` calls for that pair, whose statements take effect in
any order `k :: rest`, all return without error the same key, the candidate of
the call that took effect first; there is one result per call, and afterwards
exactly one row exists for the pair. -/
theorem insertUserRoomPrivateKey_converges (Public : PrivateKey → PublicKey) (t : Table)
    (userNID : EventStateKeyNID) (roomNID : RoomNID) (k : PrivateKey) (rest : List PrivateKey)
    (hnone : t.lookup userNID roomNID = none) :
    (∀ res ∈ (insertAll Public userNID roomNID t (k :: rest)).2, res = (some k, none)) ∧
    (insertAll Public userNID roomNID t (k :: rest)).2.length = (k :: rest).length ∧
    (insertAll Public userNID roomNID t (k :: rest)).1.countPK userNID roomNID = 1 := by
  have hnew := lookup_append_fresh hnone (some k) (Public k)
  have hall : insertAll Public userNID roomNID t (k :: rest) =
      (t ++ [{ user_nid := userNID, room_nid := roomNID, pseudo_id_key := some k,
               pseudo_id_pub_key := Public k }],
       (some k, none) :: rest.map fun _ => (some k, none)) := by
    simp only [insertAll, InsertUserRoomPrivateKey_fresh Public hnone,
      insertAll_stored Public hnew rfl]
  rw [hall]
  refine ⟨fun res hres => ?_, by simp, countPK_append_fresh hnone _ _⟩
  rcases List.mem_cons.1 hres with h | h
  · exact h
  · obtain ⟨_, _, rfl⟩ := List.mem_map.1 h
    rfl

/-- Witness for C9: three calls for the pair `(1, 1)` on a table that holds only a
row of another user. -/
theorem insertUserRoomPrivateKey_converges_witness :
    Table.lookup
      [{ user_nid := 2, room_nid := 1, pseudo_id_key := none, pseudo_id_pub_key := [7] }]
      1 1 = none ∧
    (insertAll samplePublic 1 1
      [{ user_nid := 2, room_nid := 1, pseudo_id_key := none, pseudo_id_pub_key := [7] }]
      [[5, 6, 7, 8], [1, 2, 3, 4], [9, 9, 9, 9]]).2 =
      [(some [5, 6, 7, 8], none), (some [5, 6, 7, 8], none), (some [5, 6, 7, 8], none)] ∧
    (insertAll samplePublic 1 1
      [{ user_nid := 2, room_nid := 1, pseudo_id_key := none, pseudo_id_pub_key := [7] }]
      [[5, 6, 7, 8], [1, 2, 3, 4], [9, 9, 9, 9]]).1.countPK 1 1 = 1 :=
  ⟨by decide, by decide,
   (insertUserRoomPrivateKey_converges samplePublic
      [{ user_nid := 2, room_nid := 1, pseudo_id_key := none, pseudo_id_pub_key := [7] }]
      1 1 [5, 6, 7, 8] [[1, 2, 3, 4], [9, 9, 9, 9]] (by decide)).2.2⟩

/-! ## The scenario of `TestUserRoomKeysTable` -/

/-- The assertions of `TestUserRoomKeysTable` hold in the embedding, with keys
`[1, 2, 3, 4]`, `[5, 6, 7, 8]` and `[9, 10, 11, 12]` for `key`, `key2` and `key3`. -/
theorem testUserRoomKeysTable_scenario :
    (InsertUserRoomPrivateKey samplePublic [] 1 1 [1, 2, 3, 4]).2 = (some [1, 2, 3, 4], none) ∧
    (InsertUserRoomPrivateKey samplePublic
      (runCalls samplePublic [] [.insertPrivateKey 1 1 [1, 2, 3, 4]]) 1 1 [5, 6, 7, 8]).2 =
      (some [1, 2, 3, 4], none) ∧
    (InsertUserRoomPrivateKey samplePublic
      (runCalls samplePublic [] [.insertPrivateKey 1 1 [1, 2, 3, 4],
        .insertPrivateKey 1 1 [5, 6, 7, 8]]) 2 1 [9, 10, 11, 12]).2.2 = none ∧
    SelectUserRoomPrivateKey
      (runCalls samplePublic [] [.insertPrivateKey 1 1 [1, 2, 3, 4],
        .insertPrivateKey 1 1 [5, 6, 7, 8], .insertPrivateKey 2 1 [9, 10, 11, 12]]) 1 1 =
      (some [1, 2, 3, 4], none) ∧
    SelectUserRoomPrivateKey
      (runCalls samplePublic [] [.insertPrivateKey 1 1 [1, 2, 3, 4],
        .insertPrivateKey 1 1 [5, 6, 7, 8], .insertPrivateKey 2 1 [9, 10, 11, 12]]) 1 2 =
      (none, none) ∧
    lookupNID (BulkSelectUserNIDs
      (runCalls samplePublic [] [.insertPrivateKey 1 1 [1, 2, 3, 4],
        .insertPrivateKey 1 1 [5, 6, 7, 8], .insertPrivateKey 2 1 [9, 10, 11, 12]])
      [samplePublic [1, 2, 3, 4], samplePublic [9, 10, 11, 12]])
      (samplePublic [1, 2, 3, 4]) = some 1 ∧
    lookupNID (BulkSelectUserNIDs
      (runCalls samplePublic [] [.insertPrivateKey 1 1 [1, 2, 3, 4],
        .insertPrivateKey 1 1 [5, 6, 7, 8], .insertPrivateKey 2 1 [9, 10, 11, 12]])
      [samplePublic [1, 2, 3, 4], samplePublic [9, 10, 11, 12]])
      (samplePublic [9, 10, 11, 12]) = some 2 := by
  decide

end Dendrite
